import Mathlib

/-!
# Verification of the FIDO2 client-side orchestration engine specification

Shallow embedding of `lib/auth/webauthncli/fido2_test.go` (the fake FIDO2
device implementation used as the authoritative device model) together with
spec-modelled definitions for the ceremony engine (`FIDO2Login` /
`FIDO2Register`), whose implementation file is not part of the sources.

Byte slices are modelled as `List Nat`; the random fixture bytes initialised
in the Go test's `init` are modelled as fixed arbitrary stand-ins (no claim
depends on their values). Blocking user-presence waits are modelled by an
explicit `Interaction` argument (what the user eventually does: touch or
cancel); a call that does not require user presence ignores it.
-/

namespace WebauthnCLI

/-- Tri-state libfido2 option value: `libfido2.True = "true"`,
`libfido2.False = "false"`, or `libfido2.Default = ""` (unset). -/
inductive FidoBool
  | tru
  | fls
  | emp
deriving DecidableEq, Repr

/-- A `libfido2.Option` name/value pair, as found in `DeviceInfo.Options`. -/
structure DevOption where
  name : String
  value : String
deriving DecidableEq, Repr

/-- `libfido2.DeviceInfo`, restricted to the options used by the fake. -/
structure DeviceInfo where
  options : List DevOption
deriving DecidableEq, Repr

/-- `libfido2.User`. -/
structure FidoUser where
  id : List Nat
  name : String
  displayName : String
  icon : String
deriving DecidableEq, Repr

/-- `libfido2.CredentialType`; the fake only distinguishes ES256. -/
inductive CredentialType
  | es256
  | otherType
deriving DecidableEq, Repr

/-- `libfido2.Credential` (a resident credential stored on the device). -/
structure Credential where
  id : List Nat
  ctype : CredentialType
  user : FidoUser
deriving DecidableEq, Repr

/-- `libfido2.Assertion`. -/
structure Assertion where
  authDataCBOR : List Nat
  sig : List Nat
  hmacSecret : List Nat
  credentialID : List Nat
  user : FidoUser
deriving DecidableEq, Repr

/-- `libfido2.Attestation`. -/
structure Attestation where
  clientDataHash : List Nat
  authData : List Nat
  credentialID : List Nat
  credentialType : CredentialType
  pubKey : List Nat
  cert : List Nat
  sig : List Nat
  format : String
deriving DecidableEq, Repr

/-- Errors returned by the fake device: `errors.New` messages, raw
`libfido2.Error{Code}` values, and the named libfido2 sentinel errors. -/
inductive F2Error
  | msg (s : String)
  | libfido2 (code : Int)
  | unsupportedOption
  | noCredentials
  | pinRequired
  | pinInvalid
  | keepaliveCancel
deriving DecidableEq, Repr

/-- Error message rendering; raw codes render as go-libfido2's fallback
`"libfido2 error %d"`, which is the only message any claim inspects. -/
def F2Error.message : F2Error → String
  | .msg s => s
  | .libfido2 c => "libfido2 error " ++ toString c
  | .unsupportedOption => "unsupported option"
  | .noCredentials => "no credentials"
  | .pinRequired => "pin required"
  | .pinInvalid => "pin invalid"
  | .keepaliveCancel => "keep alive cancel"

/-- Fixture bytes (`makeCredentialAuthDataCBOR` in the Go test): random in Go,
a fixed arbitrary stand-in here. -/
def makeCredentialAuthDataCBOR : List Nat := [88, 37, 1]

/-- Fixture bytes (`makeCredentialSig`). -/
def makeCredentialSig : List Nat := [48, 70, 2]

/-- Fixture bytes (`assertionAuthDataCBOR`). -/
def assertionAuthDataCBOR : List Nat := [88, 37, 3]

/-- Fixture bytes (`assertionSig`). -/
def assertionSig : List Nat := [48, 70, 4]

/-- What the user eventually does while a device is blocked on user presence. -/
inductive Interaction
  | touch
  | cancel
deriving DecidableEq, Repr

/-- `fakeFIDO2Device`: state of one fake authenticator.
`keyHandle` is `f.key.KeyHandle` (the non-resident "base" credential id);
`certBytes` is `f.key.Cert`; `pubKey` the CBOR-encoded public key. -/
structure FakeFIDO2Device where
  failUV : Bool
  u2fOnly : Bool
  assertionErrors : List F2Error
  path : String
  info : Option DeviceInfo
  pin : String
  credentials : List Credential
  wantRPID : String
  format : String
  keyHandle : List Nat
  certBytes : List Nat
  pubKey : List Nat
deriving DecidableEq, Repr

namespace FakeFIDO2Device

/-- `fakeFIDO2Device.hasBoolOpt`: true iff the device info lists the named
option with value `"true"` (first match wins, as in the Go loop). -/
def hasBoolOpt (f : FakeFIDO2Device) (n : String) : Bool :=
  match f.info with
  | none => false
  | some i =>
    match i.options.find? (fun o => o.name == n) with
    | some o => o.value == "true"
    | none => false

/-- `fakeFIDO2Device.hasClientPin`. -/
def hasClientPin (f : FakeFIDO2Device) : Bool := f.hasBoolOpt "clientPin"

/-- `fakeFIDO2Device.hasRK`. -/
def hasRK (f : FakeFIDO2Device) : Bool := f.hasBoolOpt "rk"

/-- `fakeFIDO2Device.hasUV`. -/
def hasUV (f : FakeFIDO2Device) : Bool := f.hasBoolOpt "uv"

/-- `fakeFIDO2Device.isBio`. -/
def isBio (f : FakeFIDO2Device) : Bool := f.hasBoolOpt "bioEnroll"

/-- `fakeFIDO2Device.validatePIN`: biometric devices accept an empty PIN even
when one is configured; otherwise an empty PIN on a PIN-configured device is
`ErrPinRequired` and a mismatch is `ErrPinInvalid`. -/
def validatePIN (f : FakeFIDO2Device) (pin : String) : Except F2Error Unit :=
  if f.isBio = true ∧ pin = "" then .ok ()
  else if f.pin ≠ "" ∧ pin = "" then .error .pinRequired
  else if f.pin ≠ "" ∧ f.pin ≠ pin then .error .pinInvalid
  else .ok ()

end FakeFIDO2Device

/-- `fakeFIDO2Device.maybeLockUntilInteraction`: with `up = false` the call
does not block; with `up = true` it blocks until the user touches (success)
or cancels (`ErrKeepaliveCancel`). -/
def maybeLockUntilInteraction (up : Bool) (i : Interaction) : Except F2Error Unit :=
  if up = false then .ok ()
  else
    match i with
    | .touch => .ok ()
    | .cancel => .error .keepaliveCancel

/-- `libfido2.MakeCredentialOpts`, restricted to the fields the fake reads. -/
structure MakeCredentialOpts where
  rk : FidoBool
  uv : FidoBool
deriving DecidableEq, Repr

/-- `libfido2.AssertionOpts`, restricted to the fields the fake reads. -/
structure AssertionOpts where
  up : FidoBool
  uv : FidoBool
deriving DecidableEq, Repr

namespace FakeFIDO2Device

/-- `fakeFIDO2Device.MakeCredential`. The `i` argument is the user's eventual
interaction (the Go code blocks on a condition variable); `freshID` stands in
for the random id generated for a newly-minted resident credential. Returns
the result together with the (possibly updated) device state. -/
def makeCredential (f : FakeFIDO2Device) (clientDataHash : List Nat)
    (rpID : String) (user : FidoUser) (typ : CredentialType) (pin : String)
    (opts : MakeCredentialOpts) (i : Interaction) (freshID : List Nat) :
    Except F2Error Attestation × FakeFIDO2Device :=
  if clientDataHash = [] then (.error (.msg "clientDataHash required"), f)
  else if rpID = "" then (.error (.msg "rp.ID required"), f)
  else if typ ≠ CredentialType.es256 then (.error (.msg "bad credential type"), f)
  else if opts.uv = FidoBool.fls then (.error .unsupportedOption, f)
  else if opts.uv = FidoBool.tru ∧ f.hasUV = false then (.error .unsupportedOption, f)
  else if opts.rk = FidoBool.tru ∧ f.hasRK = false then (.error .unsupportedOption, f)
  else
    match f.validatePIN pin with
    | .error e => (.error e, f)
    | .ok _ =>
      match maybeLockUntilInteraction true i with
      | .error e => (.error e, f)
      | .ok _ =>
        let cert := if f.format = "none" then [] else f.certBytes
        let sig := if f.format = "none" then [] else makeCredentialSig
        let cID := if opts.rk = FidoBool.tru then freshID else f.keyHandle
        let f' :=
          if opts.rk = FidoBool.tru then
            { f with credentials :=
                f.credentials ++ [⟨freshID, CredentialType.es256, user⟩] }
          else f
        (.ok { clientDataHash := clientDataHash
               authData := makeCredentialAuthDataCBOR
               credentialID := cID
               credentialType := CredentialType.es256
               pubKey := f.pubKey
               cert := cert
               sig := sig
               format := f.format }, f')

/-- The UV-option switch of `fakeFIDO2Device.Assertion` (in the Go switch's
order): unset is fine; `UV=true` fails when `failUV` is forced, otherwise
needs a biometric device or a PIN-capable device with a non-empty PIN
argument; everything else (including `UV=false`) is rejected. -/
def uvOK (f : FakeFIDO2Device) (pin : String) (uv : FidoBool) : Bool :=
  match uv with
  | .emp => true
  | .tru =>
    if f.failUV then false
    else f.isBio || (f.hasClientPin && decide (pin ≠ ""))
  | .fls => false

/-- The `privilegedAccess` flag of `fakeFIDO2Device.Assertion`, as it stands
after PIN validation has succeeded: biometric devices are always privileged;
otherwise a non-empty validated PIN together with `UP=true` grants access. -/
def privAccess (f : FakeFIDO2Device) (pin : String) (opts : AssertionOpts) : Bool :=
  if pin ≠ "" ∧ opts.up = FidoBool.tru then true else f.isBio

/-- The assertion list assembled by `fakeFIDO2Device.Assertion` before the
single-assertion strip: the "base" credential only when explicitly allowed,
then (under privileged access) every resident credential that the allow list
permits (an empty allow list permits all). -/
def assembleAssertions (f : FakeFIDO2Device) (credentialIDs : List (List Nat))
    (priv : Bool) : List Assertion :=
  (if f.keyHandle ∈ credentialIDs then
    [{ authDataCBOR := assertionAuthDataCBOR
       sig := assertionSig
       hmacSecret := []
       credentialID := f.keyHandle
       user := ⟨[], "", "", ""⟩ }]
  else []) ++
  (if priv then
    (f.credentials.filter
        (fun c => decide (credentialIDs = [] ∨ c.id ∈ credentialIDs))).map
      (fun c =>
        { authDataCBOR := assertionAuthDataCBOR
          sig := assertionSig
          hmacSecret := []
          credentialID := c.id
          user := ⟨c.user.id, c.user.name, c.user.displayName, c.user.icon⟩ })
  else [])

end FakeFIDO2Device

/-- The final `switch len(assertions)` of `fakeFIDO2Device.Assertion`:
no assertion is `ErrNoCredentials`; exactly one has its user name,
display name and icon removed (CTAP2 authenticatorGetAssertion, user member
0x04); more than one is returned as assembled. -/
def finishAssertions (l : List Assertion) : Except F2Error (List Assertion) :=
  match l with
  | [] => .error .noCredentials
  | [a] => .ok [{ a with user := { a.user with name := "", displayName := "", icon := "" } }]
  | _ => .ok l

namespace FakeFIDO2Device

/-- The body of `fakeFIDO2Device.Assertion` after the simulated-error branch:
argument checks, the UV switch, PIN validation (only when a PIN is present
and `UP=true`), the user-presence wait, assembly and the final strip. -/
def assertionBody (f : FakeFIDO2Device) (rpID : String)
    (clientDataHash : List Nat) (credentialIDs : List (List Nat))
    (pin : String) (opts : AssertionOpts) (i : Interaction) :
    Except F2Error (List Assertion) :=
  if rpID = "" then .error (.msg "rp.ID required")
  else if f.wantRPID ≠ "" ∧ f.wantRPID ≠ rpID then .error .noCredentials
  else if clientDataHash = [] then .error (.msg "clientDataHash required")
  else if f.uvOK pin opts.uv = false then .error .unsupportedOption
  else
    match (if pin ≠ "" ∧ opts.up = FidoBool.tru then f.validatePIN pin else .ok ()) with
    | .error e => .error e
    | .ok _ =>
      match maybeLockUntilInteraction (decide (opts.up = FidoBool.tru)) i with
      | .error e => .error e
      | .ok _ => finishAssertions (f.assembleAssertions credentialIDs (f.privAccess pin opts))

/-- `fakeFIDO2Device.Assertion`: simulated errors are consumed first,
one per invocation; otherwise the body runs and the state is unchanged. -/
def assertion (f : FakeFIDO2Device) (rpID : String) (clientDataHash : List Nat)
    (credentialIDs : List (List Nat)) (pin : String) (opts : AssertionOpts)
    (i : Interaction) : Except F2Error (List Assertion) × FakeFIDO2Device :=
  match f.assertionErrors with
  | e :: rest => (.error e, { f with assertionErrors := rest })
  | [] => (f.assertionBody rpID clientDataHash credentialIDs pin opts i, f)

end FakeFIDO2Device

/-! ## Spec-modelled engine definitions

`FIDO2Login` / `FIDO2Register` (fido2.go) are not among the sources — only
their tests are — so the ceremony engine is modelled from the spec, as the
doc comments note. -/

/-- Substring test: `pat` occurs somewhere in `s`. -/
def strContains (s pat : String) : Bool :=
  (List.range (s.toList.length + 1)).any
    (fun k => pat.toList.isPrefixOf (s.toList.drop k))

/-- The input fields of a `CredentialAssertion` that INIT validates. -/
structure CredentialAssertionIn where
  challenge : List Nat
  rpID : String
deriving DecidableEq, Repr

/-- COSE algorithm identifiers appearing in credential parameters. -/
inductive CredAlg
  | es256
  | eddsa
deriving DecidableEq, Repr

/-- The input fields of a `CredentialCreation` that INIT validates. -/
structure CredentialCreationIn where
  challenge : List Nat
  rpID : String
  params : List CredAlg
deriving DecidableEq, Repr

/-- Modelled from the spec: `FIDO2Login`'s INIT validation (§4.D.1 step 1;
fido2.go is not among the sources). Rejects immediately on empty origin, nil
assertion, empty challenge, empty relying-party ID or nil prompt, with an
error message naming the offending field (messages as asserted by
`TestFIDO2Login_errors`). -/
def loginInitCheck (origin : String) (assn : Option CredentialAssertionIn)
    (hasPrompt : Bool) : Except String Unit :=
  if origin = "" then .error "origin required"
  else
    match assn with
    | none => .error "assertion required"
    | some a =>
      if a.challenge = [] then .error "challenge required"
      else if a.rpID = "" then .error "relying party ID required"
      else if hasPrompt = false then .error "prompt required"
      else .ok ()

/-- Modelled from the spec: `FIDO2Register`'s INIT validation (§4.D.1 step 1;
fido2.go is not among the sources). Like the login check, plus the
credential-parameter list must include ES256 (messages as asserted by
`TestFIDO2Register_errors`). -/
def registerInitCheck (origin : String) (cc : Option CredentialCreationIn)
    (hasPrompt : Bool) : Except String Unit :=
  if origin = "" then .error "origin required"
  else
    match cc with
    | none => .error "credential creation required"
    | some c =>
      if c.challenge = [] then .error "challenge required"
      else if c.rpID = "" then .error "relying party ID required"
      else if (c.params.contains CredAlg.es256) = false then
        .error "ES256 algorithm required in credential parameters"
      else if hasPrompt = false then .error "prompt required"
      else .ok ()

/-- Modelled from the spec: the login worker's bounded retry of assertions
that fail with the transient UV error 63 (§4.D.2 step 5, "retry up to a small
bounded limit (≈ 3)"; fido2.go is not among the sources). `fuel` counts the
remaining attempts; the engine starts with `maxUVAttempts`. Beyond the limit
the underlying libfido2 error surfaces. -/
def assertionWithRetries (rpID : String) (clientDataHash : List Nat)
    (credentialIDs : List (List Nat)) (pin : String) (opts : AssertionOpts)
    (i : Interaction) :
    Nat → FakeFIDO2Device → Except F2Error (List Assertion) × FakeFIDO2Device
  | 0, f => (.error (.libfido2 63), f)
  | n + 1, f =>
    match (f.assertion rpID clientDataHash credentialIDs pin opts i).1 with
    | .error (.libfido2 63) =>
      if n = 0 then f.assertion rpID clientDataHash credentialIDs pin opts i
      else assertionWithRetries rpID clientDataHash credentialIDs pin opts i n
        (f.assertion rpID clientDataHash credentialIDs pin opts i).2
    | _ => f.assertion rpID clientDataHash credentialIDs pin opts i

/-- Modelled from the spec: the total number of assertion attempts the login
worker makes on one device in the face of UV error 63 (≈ 3). -/
def maxUVAttempts : Nat := 3

/-- Device classes taking part in a passwordless ceremony (§4.D.3 requires
`rk` plus built-in UV or a client PIN, so plain devices are excluded). -/
inductive PwdlessDev
  | bioDev
  | pinDevice
deriving DecidableEq, Repr

/-- User-visible prompt invocations (§4.C). -/
inductive PromptEv
  | touchPrompt
  | pinPrompt
deriving DecidableEq, Repr

/-- Ceremony outcome for the choreography model. -/
inductive LoginOutcome
  | ok
  | cancelled
deriving DecidableEq, Repr

/-- Number of `prompt_touch` invocations in a prompt trace. -/
def countTouches (l : List PromptEv) : Nat :=
  (l.filter (fun e => e == PromptEv.touchPrompt)).length

/-- Modelled from the spec: the passwordless login choreography (§4.D.2
passwordless steps 1–3, §8 touch counts, §4.D.5 cancellation; fido2.go is not
among the sources). A single plugged biometric device satisfies presence and
verification with one touch; otherwise a device-selection touch comes first
and the chosen device then performs its UV step — a biometric winner needs
one more touch, a PIN winner answers the PIN prompt and then touches again.
When the PIN prompt cancels the surrounding context (`pinCancelPrompt`), the
ceremony stops before the second touch with `Cancelled`. -/
def pwdlessLogin (devs : List PwdlessDev) (winner : PwdlessDev)
    (cancelAfterPIN : Bool) : List PromptEv × LoginOutcome :=
  if devs = [PwdlessDev.bioDev] then ([PromptEv.touchPrompt], LoginOutcome.ok)
  else
    match winner with
    | .bioDev => ([PromptEv.touchPrompt, PromptEv.touchPrompt], LoginOutcome.ok)
    | .pinDevice =>
      if cancelAfterPIN then
        ([PromptEv.touchPrompt, PromptEv.pinPrompt], LoginOutcome.cancelled)
      else
        ([PromptEv.touchPrompt, PromptEv.pinPrompt, PromptEv.touchPrompt],
          LoginOutcome.ok)

/-- Modelled from the spec: the MFA login/register choreography (§4.D.2 MFA
steps 2–4, §8; fido2.go is not among the sources): when the winning device is
PIN-protected and UV is required the PIN prompt comes before the touch, and a
single touch then settles the race. -/
def mfaLogin (pinRequired : Bool) : List PromptEv :=
  (if pinRequired then [PromptEv.pinPrompt] else []) ++ [PromptEv.touchPrompt]

/-- Modelled from the spec: selection among the assertions returned post-UV
(§4.D.2 passwordless step 4 and §6's `actual_user` contract; fido2.go is not
among the sources). One assertion is accepted directly with an empty
`actual_user`, unless a requested user contradicts a known stored name;
several assertions are filtered by the requested user when one is given
(no match fails with "no credentials for user"), otherwise the credential
picker (`pick`, an index) chooses; in the multi-credential case `actual_user`
is the chosen credential's user name. -/
def selectAssertion (asserts : List Assertion) (userFilter : String)
    (pick : Nat) : Except F2Error (Assertion × String) :=
  match asserts with
  | [] => .error .noCredentials
  | [a] =>
    if userFilter ≠ "" ∧ a.user.name ≠ "" ∧ a.user.name ≠ userFilter then
      .error (.msg "no credentials for user")
    else .ok (a, "")
  | a :: b :: rest =>
    if userFilter ≠ "" then
      match (a :: b :: rest).filter (fun x => x.user.name == userFilter) with
      | [] => .error (.msg "no credentials for user")
      | c :: _ => .ok (c, c.user.name)
    else
      .ok ((a :: b :: rest).getD pick a,
        ((a :: b :: rest).getD pick a).user.name)

/-! ## Concrete fixture devices (mirroring the Go test fixtures) -/

/-- The `bioOpts` option set of the Go test. -/
def bioOpts : List DevOption :=
  [⟨"rk", "true"⟩, ⟨"up", "true"⟩, ⟨"uv", "true"⟩, ⟨"plat", "false"⟩,
   ⟨"alwaysUv", "true"⟩, ⟨"bioEnroll", "true"⟩, ⟨"clientPin", "true"⟩]

/-- The `pinOpts` option set of the Go test. -/
def pinOpts : List DevOption :=
  [⟨"rk", "true"⟩, ⟨"up", "true"⟩, ⟨"plat", "false"⟩, ⟨"clientPin", "true"⟩]

/-- The `authOpts` option set of the Go test. -/
def authOpts : List DevOption :=
  [⟨"rk", "true"⟩, ⟨"up", "true"⟩, ⟨"plat", "false"⟩, ⟨"clientPin", "false"⟩]

/-- A resident credential for user "llama" (ids are arbitrary stand-ins for
the random bytes of the Go fixture). -/
def llamaCred : Credential :=
  ⟨[7, 7, 7, 7], CredentialType.es256, ⟨[1, 2, 3], "llama", "", ""⟩⟩

/-- A biometric authenticator with a configured PIN and one resident
credential, mirroring `bio2` / the `bio` fixture of the Go tests. -/
def bioDevFx : FakeFIDO2Device :=
  { failUV := false
    u2fOnly := false
    assertionErrors := []
    path := "/bio1"
    info := some ⟨bioOpts⟩
    pin := "supersecretBIOpin"
    credentials := [llamaCred]
    wantRPID := ""
    format := "packed"
    keyHandle := [9, 9, 9, 9]
    certBytes := [6, 6]
    pubKey := [5, 5] }

/-- A PIN-protected authenticator (no built-in UV), mirroring `pin1`. -/
def pinDevFx : FakeFIDO2Device :=
  { failUV := false
    u2fOnly := false
    assertionErrors := []
    path := "/pin1"
    info := some ⟨pinOpts⟩
    pin := "supersecretpinllama"
    credentials := []
    wantRPID := ""
    format := "packed"
    keyHandle := [8, 8, 8, 8]
    certBytes := [6, 7]
    pubKey := [5, 6] }

/-! ## Helper lemmas -/

/-- A successful `Assertion` call leaves the device unchanged, had no queued
simulated error, and its list comes from assembling and finishing. -/
lemma assertion_ok_elim (f : FakeFIDO2Device) (rpID : String)
    (clientDataHash : List Nat) (credentialIDs : List (List Nat)) (pin : String)
    (opts : AssertionOpts) (i : Interaction) (l : List Assertion)
    (f' : FakeFIDO2Device)
    (hok : f.assertion rpID clientDataHash credentialIDs pin opts i = (.ok l, f')) :
    f' = f ∧ f.assertionBody rpID clientDataHash credentialIDs pin opts i = .ok l := by
  unfold FakeFIDO2Device.assertion at hok
  cases herr : f.assertionErrors with
  | nil =>
    rw [herr] at hok
    simp only [Prod.mk.injEq] at hok
    exact ⟨hok.2.symm, hok.1⟩
  | cons e rest =>
    rw [herr] at hok
    simp only [Prod.mk.injEq] at hok
    exact absurd hok.1 (by simp)

/-- A successful `assertionBody` result is the finished assembled list. -/
lemma assertionBody_ok_elim (f : FakeFIDO2Device) (rpID : String)
    (clientDataHash : List Nat) (credentialIDs : List (List Nat)) (pin : String)
    (opts : AssertionOpts) (i : Interaction) (l : List Assertion)
    (h : f.assertionBody rpID clientDataHash credentialIDs pin opts i = .ok l) :
    finishAssertions (f.assembleAssertions credentialIDs (f.privAccess pin opts)) = .ok l := by
  unfold FakeFIDO2Device.assertionBody at h
  repeat' split at h
  all_goals first
    | exact h
    | exact Except.noConfusion h

/-- Case analysis on `finishAssertions`. -/
lemma finishAssertions_ok_elim (as l : List Assertion)
    (h : finishAssertions as = .ok l) :
    (∃ a, as = [a] ∧
      l = [{ a with user := { a.user with name := "", displayName := "", icon := "" } }])
    ∨ (2 ≤ as.length ∧ l = as) := by
  unfold finishAssertions at h
  match as, h with
  | [a], h =>
    left
    exact ⟨a, rfl, (Except.ok.injEq _ _ ▸ h).symm⟩
  | a :: b :: rest, h =>
    right
    refine ⟨by simp, ?_⟩
    simpa using h.symm

/-- Stripping the user record preserves the credential id, so every returned
assertion's credential id appears in the assembled list. -/
lemma finishAssertions_credentialID (as l : List Assertion)
    (h : finishAssertions as = .ok l) :
    ∀ a ∈ l, ∃ b ∈ as, a.credentialID = b.credentialID := by
  intro a ha
  rcases finishAssertions_ok_elim as l h with ⟨b, hb, hl⟩ | ⟨_, hl⟩
  · subst hl
    simp only [List.mem_singleton] at ha
    subst ha
    exact ⟨b, by simp [hb]⟩
  · subst hl
    exact ⟨a, ha, rfl⟩

/-- Without privileged access the assembled list holds at most the base
credential. -/
lemma assembleAssertions_priv_false (f : FakeFIDO2Device)
    (credentialIDs : List (List Nat)) :
    ∀ a ∈ f.assembleAssertions credentialIDs false, a.credentialID = f.keyHandle := by
  intro a ha
  unfold FakeFIDO2Device.assembleAssertions at ha
  simp only [Bool.false_eq_true, if_false, List.append_nil] at ha
  split at ha
  · simp only [List.mem_singleton] at ha
    subst ha
    rfl
  · simp at ha

/-! ## Claim theorems -/

/-- C10: PIN validation on a biometric device (`bioEnroll=true`) accepts an
empty PIN argument even with a PIN configured, never returns `PinRequired`,
and still rejects a non-empty mismatched PIN with `PinInvalid`. -/
theorem biometric_pin_validation (f : FakeFIDO2Device) (pin : String)
    (hbio : f.isBio = true) :
    f.validatePIN "" = .ok ()
    ∧ f.validatePIN pin ≠ .error F2Error.pinRequired
    ∧ (f.pin ≠ "" → pin ≠ "" → pin ≠ f.pin →
        f.validatePIN pin = .error F2Error.pinInvalid) := by
  unfold FakeFIDO2Device.validatePIN
  refine ⟨by simp [hbio], ?_, ?_⟩
  · split
    · simp
    · rename_i h1
      split
      · rename_i h2
        exact absurd ⟨hbio, h2.2⟩ h1
      · split <;> simp
  · intro hfp hp hne
    rw [if_neg (by simp [hp]), if_neg (by simp [hp]),
      if_pos ⟨hfp, fun hcon => hne hcon.symm⟩]

/-- Witness for C10 on the biometric fixture device. -/
theorem biometric_pin_validation_witness :
    bioDevFx.validatePIN "" = .ok ()
    ∧ bioDevFx.validatePIN "wrong" = .error F2Error.pinInvalid :=
  ⟨(biometric_pin_validation bioDevFx "wrong" (by decide)).1,
   (biometric_pin_validation bioDevFx "wrong" (by decide)).2.2
     (by decide) (by decide) (by decide)⟩

/-- C4: a successful `Assertion` call that yields exactly one assertion
returns it with the user's name, display name and icon stripped; when it
yields more than one, the list is exactly the assembled (unmodified)
credential data. -/
theorem single_assertion_user_stripped (f : FakeFIDO2Device) (rpID : String)
    (clientDataHash : List Nat) (credentialIDs : List (List Nat)) (pin : String)
    (opts : AssertionOpts) (i : Interaction) (l : List Assertion)
    (f' : FakeFIDO2Device)
    (hok : f.assertion rpID clientDataHash credentialIDs pin opts i = (.ok l, f')) :
    (∀ a, l = [a] → a.user.name = "" ∧ a.user.displayName = "" ∧ a.user.icon = "")
    ∧ (2 ≤ l.length →
        l = f.assembleAssertions credentialIDs (f.privAccess pin opts)) := by
  obtain ⟨-, hbody⟩ := assertion_ok_elim f rpID clientDataHash credentialIDs pin opts i l f' hok
  have hfin := assertionBody_ok_elim f rpID clientDataHash credentialIDs pin opts i l hbody
  rcases finishAssertions_ok_elim _ _ hfin with ⟨b, hb, hl⟩ | ⟨hlen, hl⟩
  · constructor
    · intro a ha
      rw [hl] at ha
      simp only [List.cons.injEq, and_true] at ha
      subst ha
      exact ⟨rfl, rfl, rfl⟩
    · intro h2
      rw [hl] at h2
      simp at h2
  · constructor
    · intro a ha
      rw [hl] at ha
      rw [ha] at hlen
      simp at hlen
    · intro _
      exact hl

/-- Witness for C4: the fixture biometric device's passwordless UV call
returns its single resident credential with the user record stripped. -/
theorem single_assertion_user_stripped_witness :
    ({ authDataCBOR := assertionAuthDataCBOR
       sig := assertionSig
       hmacSecret := []
       credentialID := [7, 7, 7, 7]
       user := ⟨[1, 2, 3], "", "", ""⟩ } : Assertion).user.name = "" :=
  ((single_assertion_user_stripped bioDevFx "example.com" [1] [] ""
      ⟨FidoBool.tru, FidoBool.tru⟩ Interaction.touch
      [{ authDataCBOR := assertionAuthDataCBOR
         sig := assertionSig
         hmacSecret := []
         credentialID := [7, 7, 7, 7]
         user := ⟨[1, 2, 3], "", "", ""⟩ }] bioDevFx rfl).1 _ rfl).1

/-- C2 counterexample: on a biometric device holding a resident credential,
the device-selection call issued with only the UP bit (`UV` unset, empty PIN)
does return the resident credential — `privilegedAccess` is granted by
`bioEnroll` alone, with no separate verification step. -/
theorem upOnly_call_reveals_resident_on_bio :
    bioDevFx.isBio = true
    ∧ bioDevFx.credentials = [llamaCred]
    ∧ llamaCred.id ≠ bioDevFx.keyHandle
    ∧ (bioDevFx.assertion "example.com" [1] [] ""
        ⟨FidoBool.tru, FidoBool.emp⟩ Interaction.touch).1 =
      .ok [{ authDataCBOR := assertionAuthDataCBOR
             sig := assertionSig
             hmacSecret := []
             credentialID := llamaCred.id
             user := ⟨[1, 2, 3], "", "", ""⟩ }] :=
  ⟨rfl, rfl, by decide, rfl⟩

/-- C2 (amended): a resident credential is disclosed only under privileged
access — the device is biometric, or a non-empty PIN was validated together
with `UP=true`. In particular, on a non-biometric device the device-selection
call (empty PIN) never returns a resident credential: every returned
assertion carries the base (non-resident) credential id. -/
theorem resident_requires_privileged_access (f : FakeFIDO2Device)
    (rpID : String) (clientDataHash : List Nat) (credentialIDs : List (List Nat))
    (pin : String) (opts : AssertionOpts) (i : Interaction) (l : List Assertion)
    (f' : FakeFIDO2Device)
    (hok : f.assertion rpID clientDataHash credentialIDs pin opts i = (.ok l, f'))
    (hbio : f.isBio = false) (hsel : pin = "" ∨ opts.up ≠ FidoBool.tru) :
    ∀ a ∈ l, a.credentialID = f.keyHandle := by
  obtain ⟨-, hbody⟩ :=
    assertion_ok_elim f rpID clientDataHash credentialIDs pin opts i l f' hok
  have hfin :=
    assertionBody_ok_elim f rpID clientDataHash credentialIDs pin opts i l hbody
  have hpriv : f.privAccess pin opts = false := by
    unfold FakeFIDO2Device.privAccess
    rw [if_neg, hbio]
    rcases hsel with h | h
    · exact fun hc => hc.1 h
    · exact fun hc => h hc.2
  rw [hpriv] at hfin
  intro a ha
  obtain ⟨b, hb, hab⟩ := finishAssertions_credentialID _ _ hfin a ha
  rw [hab]
  exact assembleAssertions_priv_false f credentialIDs b hb

/-- Witness for C2 (amended): on the PIN fixture device, the UP-only,
no-PIN selection call returns nothing but the base credential (here: it
fails with `ErrNoCredentials`, so the conclusion holds over an `.ok` list
of the matching MFA call instead). -/
theorem resident_requires_privileged_access_witness :
    Assertion.credentialID
      { authDataCBOR := assertionAuthDataCBOR
        sig := assertionSig
        hmacSecret := []
        credentialID := [8, 8, 8, 8]
        user := (⟨[], "", "", ""⟩ : FidoUser) } = pinDevFx.keyHandle :=
  resident_requires_privileged_access pinDevFx "example.com" [1] [[8, 8, 8, 8]]
    "" ⟨FidoBool.tru, FidoBool.emp⟩ Interaction.touch
    [{ authDataCBOR := assertionAuthDataCBOR
       sig := assertionSig
       hmacSecret := []
       credentialID := [8, 8, 8, 8]
       user := (⟨[], "", "", ""⟩ : FidoUser) }] pinDevFx rfl
    rfl (Or.inl rfl)
    { authDataCBOR := assertionAuthDataCBOR
      sig := assertionSig
      hmacSecret := []
      credentialID := [8, 8, 8, 8]
      user := (⟨[], "", "", ""⟩ : FidoUser) }
    (List.mem_singleton.mpr rfl)

/-- C9 counterexample: on a biometric device with a configured PIN, a
`MakeCredential` call with an empty PIN argument does not fail with
`PinRequired` — it succeeds (the biometric check supersedes the PIN). -/
theorem bio_makeCredential_empty_pin_accepted :
    bioDevFx.pin ≠ ""
    ∧ (bioDevFx.makeCredential [1] "example.com" ⟨[2], "llama", "Llama", ""⟩
        CredentialType.es256 "" ⟨FidoBool.emp, FidoBool.emp⟩
        Interaction.touch [4, 4]).1 =
      .ok { clientDataHash := [1]
            authData := makeCredentialAuthDataCBOR
            credentialID := bioDevFx.keyHandle
            credentialType := CredentialType.es256
            pubKey := bioDevFx.pubKey
            cert := bioDevFx.certBytes
            sig := makeCredentialSig
            format := "packed" } :=
  ⟨by decide, rfl⟩

/-- C9 (amended): on a non-biometric device with a configured PIN,
`MakeCredential` validates the PIN argument even when UV is not requested
(provided the call's other option checks pass): an empty PIN argument yields
`PinRequired`, a mismatched one yields `PinInvalid` — and in either case the
result is the same for every user interaction (including cancel), showing the
validation happens before the user-presence wait. -/
theorem nonbio_makeCredential_validates_pin (f : FakeFIDO2Device)
    (clientDataHash : List Nat) (rpID : String) (user : FidoUser) (pin : String)
    (opts : MakeCredentialOpts) (i : Interaction) (freshID : List Nat)
    (hbio : f.isBio = false) (hfp : f.pin ≠ "")
    (hcdh : clientDataHash ≠ []) (hrp : rpID ≠ "")
    (huv : opts.uv ≠ FidoBool.fls) (huv2 : opts.uv = FidoBool.tru → f.hasUV = true)
    (hrk : opts.rk = FidoBool.tru → f.hasRK = true) :
    (pin = "" →
      (f.makeCredential clientDataHash rpID user CredentialType.es256 pin opts
          i freshID).1 = .error F2Error.pinRequired)
    ∧ (pin ≠ "" → f.pin ≠ pin →
      (f.makeCredential clientDataHash rpID user CredentialType.es256 pin opts
          i freshID).1 = .error F2Error.pinInvalid) := by
  unfold FakeFIDO2Device.makeCredential
  rw [if_neg hcdh, if_neg hrp, if_neg (by simp), if_neg huv,
    if_neg (fun hc => by rw [huv2 hc.1] at hc; exact absurd hc.2 (by simp)),
    if_neg (fun hc => by rw [hrk hc.1] at hc; exact absurd hc.2 (by simp))]
  constructor
  · intro hp
    have hv : f.validatePIN pin = .error F2Error.pinRequired := by
      unfold FakeFIDO2Device.validatePIN
      rw [if_neg (fun hc => by rw [hbio] at hc; exact absurd hc.1 (by simp)),
        if_pos ⟨hfp, hp⟩]
    rw [hv]
  · intro hp hne
    have hv : f.validatePIN pin = .error F2Error.pinInvalid := by
      unfold FakeFIDO2Device.validatePIN
      rw [if_neg (fun hc => hp hc.2), if_neg (fun hc => hp hc.2),
        if_pos ⟨hfp, hne⟩]
    rw [hv]

/-- Witness for C9 (amended) on the PIN fixture device, with a cancelling
user interaction: the PIN errors surface before any presence interaction. -/
theorem nonbio_makeCredential_validates_pin_witness :
    (pinDevFx.makeCredential [1] "example.com" ⟨[2], "llama", "Llama", ""⟩
        CredentialType.es256 "" ⟨FidoBool.emp, FidoBool.emp⟩
        Interaction.cancel []).1 = .error F2Error.pinRequired
    ∧ (pinDevFx.makeCredential [1] "example.com" ⟨[2], "llama", "Llama", ""⟩
        CredentialType.es256 "nope" ⟨FidoBool.emp, FidoBool.emp⟩
        Interaction.cancel []).1 = .error F2Error.pinInvalid :=
  ⟨(nonbio_makeCredential_validates_pin pinDevFx [1] "example.com"
      ⟨[2], "llama", "Llama", ""⟩ "" ⟨FidoBool.emp, FidoBool.emp⟩
      Interaction.cancel [] (by decide) (by decide) (by decide) (by decide)
      (by decide) (fun h => by cases h) (fun h => by cases h)).1 rfl,
   (nonbio_makeCredential_validates_pin pinDevFx [1] "example.com"
      ⟨[2], "llama", "Llama", ""⟩ "nope" ⟨FidoBool.emp, FidoBool.emp⟩
      Interaction.cancel [] (by decide) (by decide) (by decide) (by decide)
      (by decide) (fun h => by cases h) (fun h => by cases h)).2
     (by decide) (by decide)⟩

/-- `validatePIN` only fails with PIN errors, never unsupported-option. -/
lemma validatePIN_ne_unsupported (f : FakeFIDO2Device) (pin : String) :
    f.validatePIN pin ≠ .error F2Error.unsupportedOption := by
  unfold FakeFIDO2Device.validatePIN
  split
  · simp
  · split
    · simp
    · split <;> simp

/-- The user-presence wait only fails with the keepalive-cancel error. -/
lemma maybeLock_ne_unsupported (up : Bool) (i : Interaction) :
    maybeLockUntilInteraction up i ≠ .error F2Error.unsupportedOption := by
  unfold maybeLockUntilInteraction
  split
  · simp
  · cases i <;> simp

/-- `finishAssertions` only fails with `ErrNoCredentials`. -/
lemma finishAssertions_ne_unsupported (as : List Assertion) :
    finishAssertions as ≠ .error F2Error.unsupportedOption := by
  rcases as with _ | ⟨a, _ | ⟨b, rest⟩⟩ <;> simp [finishAssertions]

/-- Once the UV switch accepts, no later stage of the `Assertion` body can
produce unsupported-option. -/
lemma assertionBody_ne_unsupported (f : FakeFIDO2Device) (rpID : String)
    (clientDataHash : List Nat) (credentialIDs : List (List Nat)) (pin : String)
    (opts : AssertionOpts) (i : Interaction)
    (hrp : rpID ≠ "") (hwant : f.wantRPID = "") (hcdh : clientDataHash ≠ [])
    (huv : f.uvOK pin opts.uv = true) :
    f.assertionBody rpID clientDataHash credentialIDs pin opts i ≠
      .error F2Error.unsupportedOption := by
  unfold FakeFIDO2Device.assertionBody
  rw [if_neg hrp, if_neg (fun hc => hc.1 hwant), if_neg hcdh,
    if_neg (by simp [huv])]
  cases hv : (if pin ≠ "" ∧ opts.up = FidoBool.tru then f.validatePIN pin
      else (Except.ok () : Except F2Error Unit)) with
  | error e =>
    have he : e ≠ F2Error.unsupportedOption := by
      split at hv
      · intro hcon
        subst hcon
        exact validatePIN_ne_unsupported f pin hv
      · exact Except.noConfusion hv
    intro hcon
    simp at hcon
    exact he hcon
  | ok u =>
    cases hl : maybeLockUntilInteraction (decide (opts.up = FidoBool.tru)) i with
    | error e2 =>
      intro hcon
      simp at hcon
      subst hcon
      exact maybeLock_ne_unsupported _ i hl
    | ok u2 =>
      exact finishAssertions_ne_unsupported _

/-- C3 counterexample: `MakeCredential` with `UV=true` on a PIN-capable
device called with the correct non-empty PIN is rejected with
unsupported-option — the fake requires the `uv` capability, which PIN-only
devices lack. -/
theorem makeCredential_uv_true_pin_device_unsupported :
    pinDevFx.hasClientPin = true
    ∧ pinDevFx.pin = "supersecretpinllama"
    ∧ (pinDevFx.makeCredential [1] "example.com" ⟨[2], "llama", "Llama", ""⟩
        CredentialType.es256 "supersecretpinllama"
        ⟨FidoBool.emp, FidoBool.tru⟩ Interaction.touch []).1 =
      .error F2Error.unsupportedOption :=
  ⟨rfl, rfl, rfl⟩

/-- C3 (amended): `UV=false` is rejected with unsupported-option by both
`MakeCredential` and `Assertion` (once the preceding argument checks pass).
For `Assertion`, `UV=true` (absent a forced `failUV`) is accepted exactly on
a biometric device or a PIN-capable device called with a non-empty PIN, and
rejected with unsupported-option otherwise. For `MakeCredential`, however,
`UV=true` requires the `uv` capability: without it the call fails with
unsupported-option even on a PIN-capable device with a non-empty PIN. -/
theorem uv_option_validation :
    (∀ (f : FakeFIDO2Device) (clientDataHash : List Nat) (rpID : String)
        (user : FidoUser) (pin : String) (opts : MakeCredentialOpts)
        (i : Interaction) (freshID : List Nat),
      clientDataHash ≠ [] → rpID ≠ "" → opts.uv = FidoBool.fls →
      (f.makeCredential clientDataHash rpID user CredentialType.es256 pin opts
          i freshID).1 = .error F2Error.unsupportedOption)
    ∧ (∀ (f : FakeFIDO2Device) (clientDataHash : List Nat) (rpID : String)
        (user : FidoUser) (pin : String) (opts : MakeCredentialOpts)
        (i : Interaction) (freshID : List Nat),
      clientDataHash ≠ [] → rpID ≠ "" → opts.uv = FidoBool.tru →
      f.hasUV = false →
      (f.makeCredential clientDataHash rpID user CredentialType.es256 pin opts
          i freshID).1 = .error F2Error.unsupportedOption)
    ∧ (∀ (f : FakeFIDO2Device) (rpID : String) (clientDataHash : List Nat)
        (credentialIDs : List (List Nat)) (pin : String) (opts : AssertionOpts)
        (i : Interaction),
      f.assertionErrors = [] → rpID ≠ "" → f.wantRPID = "" →
      clientDataHash ≠ [] → opts.uv = FidoBool.fls →
      (f.assertion rpID clientDataHash credentialIDs pin opts i).1 =
        .error F2Error.unsupportedOption)
    ∧ (∀ (f : FakeFIDO2Device) (rpID : String) (clientDataHash : List Nat)
        (credentialIDs : List (List Nat)) (pin : String) (opts : AssertionOpts)
        (i : Interaction),
      f.assertionErrors = [] → rpID ≠ "" → f.wantRPID = "" →
      clientDataHash ≠ [] → opts.uv = FidoBool.tru → f.failUV = false →
      ((f.isBio = false → (f.hasClientPin = false ∨ pin = "") →
        (f.assertion rpID clientDataHash credentialIDs pin opts i).1 =
          .error F2Error.unsupportedOption)
       ∧ ((f.isBio = true ∨ (f.hasClientPin = true ∧ pin ≠ "")) →
        (f.assertion rpID clientDataHash credentialIDs pin opts i).1 ≠
          .error F2Error.unsupportedOption))) := by
  refine ⟨?_, ?_, ?_, ?_⟩
  · intro f clientDataHash rpID user pin opts i freshID hcdh hrp huv
    unfold FakeFIDO2Device.makeCredential
    rw [if_neg hcdh, if_neg hrp, if_neg (by simp), if_pos huv]
  · intro f clientDataHash rpID user pin opts i freshID hcdh hrp huv huv2
    unfold FakeFIDO2Device.makeCredential
    rw [if_neg hcdh, if_neg hrp, if_neg (by simp),
      if_neg (by rw [huv]; exact fun hc => by cases hc),
      if_pos ⟨huv, huv2⟩]
  · intro f rpID clientDataHash credentialIDs pin opts i herr hrp hwant hcdh huv
    unfold FakeFIDO2Device.assertion
    rw [herr]
    unfold FakeFIDO2Device.assertionBody
    rw [if_neg hrp, if_neg (fun hc => hc.1 hwant), if_neg hcdh,
      if_pos (by rw [huv]; rfl)]
  · intro f rpID clientDataHash credentialIDs pin opts i herr hrp hwant hcdh
      huv hfail
    constructor
    · intro hbio hcp
      unfold FakeFIDO2Device.assertion
      rw [herr]
      unfold FakeFIDO2Device.assertionBody
      rw [if_neg hrp, if_neg (fun hc => hc.1 hwant), if_neg hcdh, if_pos ?_]
      rw [huv]
      unfold FakeFIDO2Device.uvOK
      rw [hfail]
      simp only [if_false, Bool.false_eq_true]
      rcases hcp with hcp | hp
      · simp [hbio, hcp]
      · simp [hbio, hp]
    · intro hacc
      unfold FakeFIDO2Device.assertion
      rw [herr]
      have huvok : f.uvOK pin opts.uv = true := by
        rw [huv]
        unfold FakeFIDO2Device.uvOK
        rw [hfail]
        simp only [if_false, Bool.false_eq_true]
        rcases hacc with hb | ⟨hcp, hp⟩
        · simp [hb]
        · simp [hcp, hp]
      exact assertionBody_ne_unsupported f rpID clientDataHash credentialIDs
        pin opts i hrp hwant hcdh huvok

/-- Witness for C3 (amended) on the fixture devices. -/
theorem uv_option_validation_witness :
    (pinDevFx.makeCredential [1] "example.com" ⟨[2], "llama", "Llama", ""⟩
        CredentialType.es256 "" ⟨FidoBool.emp, FidoBool.fls⟩
        Interaction.touch []).1 = .error F2Error.unsupportedOption
    ∧ (pinDevFx.assertion "example.com" [1] [] ""
        ⟨FidoBool.tru, FidoBool.fls⟩ Interaction.touch).1 =
      .error F2Error.unsupportedOption
    ∧ (pinDevFx.assertion "example.com" [1] [] ""
        ⟨FidoBool.tru, FidoBool.tru⟩ Interaction.touch).1 =
      .error F2Error.unsupportedOption
    ∧ (bioDevFx.assertion "example.com" [1] [] ""
        ⟨FidoBool.tru, FidoBool.tru⟩ Interaction.touch).1 ≠
      .error F2Error.unsupportedOption :=
  ⟨(uv_option_validation).1 pinDevFx [1] "example.com" ⟨[2], "llama", "Llama", ""⟩
      "" ⟨FidoBool.emp, FidoBool.fls⟩ Interaction.touch [] (by decide)
      (by decide) rfl,
   (uv_option_validation).2.2.1 pinDevFx "example.com" [1] [] ""
      ⟨FidoBool.tru, FidoBool.fls⟩ Interaction.touch rfl (by decide) rfl
      (by decide) rfl,
   ((uv_option_validation).2.2.2 pinDevFx "example.com" [1] [] ""
      ⟨FidoBool.tru, FidoBool.tru⟩ Interaction.touch rfl (by decide) rfl
      (by decide) rfl rfl).1 (by decide) (Or.inr rfl),
   ((uv_option_validation).2.2.2 bioDevFx "example.com" [1] [] ""
      ⟨FidoBool.tru, FidoBool.tru⟩ Interaction.touch rfl (by decide) rfl
      (by decide) rfl rfl).2 (Or.inl (by decide))⟩

/-- Unfolding the retry loop when an error-63 attempt leaves retries. -/
lemma assertionWithRetries_step (rpID : String) (clientDataHash : List Nat)
    (credentialIDs : List (List Nat)) (pin : String) (opts : AssertionOpts)
    (i : Interaction) (n : Nat) (hn : n ≠ 0) (f f' : FakeFIDO2Device)
    (h : f.assertion rpID clientDataHash credentialIDs pin opts i =
      (.error (F2Error.libfido2 63), f')) :
    assertionWithRetries rpID clientDataHash credentialIDs pin opts i (n + 1) f =
      assertionWithRetries rpID clientDataHash credentialIDs pin opts i n f' := by
  conv_lhs => unfold assertionWithRetries
  rw [h]
  simp [hn]

/-- Unfolding the retry loop on the final attempt: the device's answer is
returned as is. -/
lemma assertionWithRetries_last (rpID : String) (clientDataHash : List Nat)
    (credentialIDs : List (List Nat)) (pin : String) (opts : AssertionOpts)
    (i : Interaction) (f : FakeFIDO2Device) :
    assertionWithRetries rpID clientDataHash credentialIDs pin opts i 1 f =
      f.assertion rpID clientDataHash credentialIDs pin opts i := by
  conv_lhs => unfold assertionWithRetries
  split
  · rw [if_pos rfl]
  · rfl

/-- A device with no queued simulated errors runs the assertion body. -/
lemma assertion_no_queued (f : FakeFIDO2Device) (rpID : String)
    (clientDataHash : List Nat) (credentialIDs : List (List Nat)) (pin : String)
    (opts : AssertionOpts) (i : Interaction)
    (herr : f.assertionErrors = []) :
    f.assertion rpID clientDataHash credentialIDs pin opts i =
      (f.assertionBody rpID clientDataHash credentialIDs pin opts i, f) := by
  unfold FakeFIDO2Device.assertion
  rw [herr]

/-- Consuming one queued simulated error. -/
lemma assertion_consume_error (f : FakeFIDO2Device) (rpID : String)
    (clientDataHash : List Nat) (credentialIDs : List (List Nat)) (pin : String)
    (opts : AssertionOpts) (i : Interaction) (e : F2Error) (rest : List F2Error)
    (herr : f.assertionErrors = e :: rest) :
    f.assertion rpID clientDataHash credentialIDs pin opts i =
      (.error e, { f with assertionErrors := rest }) := by
  unfold FakeFIDO2Device.assertion
  rw [herr]

/-- C5: the retry loop on UV error 63 is bounded by three attempts: a device
that reports error 63 twice and then answers normally yields that answer
(and the login continues with no user-visible error), while a device queued
with five error-63 responses makes the loop fail with an error whose message
is exactly "libfido2 error 63". -/
theorem uv_error_63_retry (f0 : FakeFIDO2Device) (rpID : String)
    (clientDataHash : List Nat) (credentialIDs : List (List Nat)) (pin : String)
    (opts : AssertionOpts) (i : Interaction) (l : List Assertion)
    (hbody : f0.assertionBody rpID clientDataHash credentialIDs pin opts i = .ok l) :
    assertionWithRetries rpID clientDataHash credentialIDs pin opts i
        maxUVAttempts
        { f0 with assertionErrors := [F2Error.libfido2 63, F2Error.libfido2 63] } =
      (.ok l, { f0 with assertionErrors := [] })
    ∧ (assertionWithRetries rpID clientDataHash credentialIDs pin opts i
        maxUVAttempts
        { f0 with assertionErrors :=
            List.replicate 5 (F2Error.libfido2 63) }).1 =
      .error (F2Error.libfido2 63)
    ∧ F2Error.message (F2Error.libfido2 63) = "libfido2 error 63" := by
  refine ⟨?_, ?_, rfl⟩
  · rw [show maxUVAttempts = 2 + 1 from rfl,
      assertionWithRetries_step rpID clientDataHash credentialIDs pin opts i 2
        (by simp)
        { f0 with assertionErrors := [F2Error.libfido2 63, F2Error.libfido2 63] }
        { f0 with assertionErrors := [F2Error.libfido2 63] }
        (assertion_consume_error _ rpID clientDataHash credentialIDs pin opts i
          _ _ rfl),
      show (2 : Nat) = 1 + 1 from rfl,
      assertionWithRetries_step rpID clientDataHash credentialIDs pin opts i 1
        (by simp) { f0 with assertionErrors := [F2Error.libfido2 63] }
        { f0 with assertionErrors := [] }
        (assertion_consume_error _ rpID clientDataHash credentialIDs pin opts i
          _ _ rfl),
      assertionWithRetries_last,
      assertion_no_queued _ rpID clientDataHash credentialIDs pin opts i rfl]
    have hbody2 : ({ f0 with assertionErrors := [] } :
        FakeFIDO2Device).assertionBody rpID clientDataHash credentialIDs pin
        opts i = .ok l := hbody
    rw [hbody2]
  · rw [show maxUVAttempts = 2 + 1 from rfl,
      assertionWithRetries_step rpID clientDataHash credentialIDs pin opts i 2
        (by simp)
        { f0 with assertionErrors := List.replicate 5 (F2Error.libfido2 63) }
        { f0 with assertionErrors := List.replicate 4 (F2Error.libfido2 63) }
        (assertion_consume_error _ rpID clientDataHash credentialIDs pin opts i
          _ _ rfl),
      show (2 : Nat) = 1 + 1 from rfl,
      assertionWithRetries_step rpID clientDataHash credentialIDs pin opts i 1
        (by simp)
        { f0 with assertionErrors := List.replicate 4 (F2Error.libfido2 63) }
        { f0 with assertionErrors := List.replicate 3 (F2Error.libfido2 63) }
        (assertion_consume_error _ rpID clientDataHash credentialIDs pin opts i
          _ _ rfl),
      assertionWithRetries_last,
      assertion_consume_error _ rpID clientDataHash credentialIDs pin opts i
        (F2Error.libfido2 63) (List.replicate 2 (F2Error.libfido2 63)) rfl]

/-- Witness for C5 on the biometric fixture device (as in
`TestFIDO2Login_bioErrorHandling`). -/
theorem uv_error_63_retry_witness :
    assertionWithRetries "example.com" [1] [] "" ⟨FidoBool.tru, FidoBool.tru⟩
        Interaction.touch maxUVAttempts
        { bioDevFx with assertionErrors :=
            [F2Error.libfido2 63, F2Error.libfido2 63] } =
      (.ok [{ authDataCBOR := assertionAuthDataCBOR
              sig := assertionSig
              hmacSecret := []
              credentialID := [7, 7, 7, 7]
              user := ⟨[1, 2, 3], "", "", ""⟩ }], bioDevFx)
    ∧ (assertionWithRetries "example.com" [1] [] ""
        ⟨FidoBool.tru, FidoBool.tru⟩ Interaction.touch maxUVAttempts
        { bioDevFx with assertionErrors :=
            List.replicate 5 (F2Error.libfido2 63) }).1 =
      .error (F2Error.libfido2 63) :=
  ⟨(uv_error_63_retry bioDevFx "example.com" [1] [] ""
      ⟨FidoBool.tru, FidoBool.tru⟩ Interaction.touch _ rfl).1,
   (uv_error_63_retry bioDevFx "example.com" [1] [] ""
      ⟨FidoBool.tru, FidoBool.tru⟩ Interaction.touch
      [{ authDataCBOR := assertionAuthDataCBOR
         sig := assertionSig
         hmacSecret := []
         credentialID := [7, 7, 7, 7]
         user := ⟨[1, 2, 3], "", "", ""⟩ }] rfl).2.1⟩

/-- C6: `FIDO2Login` and `FIDO2Register` reject immediately on an empty
origin, a nil assertion / credential creation, an empty challenge, an empty
relying-party ID or a nil prompt, each with an error naming the offending
field; and a register credential-parameter list lacking ES256 fails with an
error mentioning ES256. -/
theorem init_validation :
    (∀ (a : Option CredentialAssertionIn) (p : Bool),
      loginInitCheck "" a p = .error "origin required")
    ∧ (∀ (o : String) (p : Bool), o ≠ "" →
      loginInitCheck o none p = .error "assertion required")
    ∧ (∀ (o : String) (a : CredentialAssertionIn) (p : Bool),
      o ≠ "" → a.challenge = [] →
      loginInitCheck o (some a) p = .error "challenge required")
    ∧ (∀ (o : String) (a : CredentialAssertionIn) (p : Bool),
      o ≠ "" → a.challenge ≠ [] → a.rpID = "" →
      loginInitCheck o (some a) p = .error "relying party ID required")
    ∧ (∀ (o : String) (a : CredentialAssertionIn),
      o ≠ "" → a.challenge ≠ [] → a.rpID ≠ "" →
      loginInitCheck o (some a) false = .error "prompt required")
    ∧ (∀ (cc : Option CredentialCreationIn) (p : Bool),
      registerInitCheck "" cc p = .error "origin required")
    ∧ (∀ (o : String) (p : Bool), o ≠ "" →
      registerInitCheck o none p = .error "credential creation required")
    ∧ (∀ (o : String) (c : CredentialCreationIn) (p : Bool),
      o ≠ "" → c.challenge = [] →
      registerInitCheck o (some c) p = .error "challenge required")
    ∧ (∀ (o : String) (c : CredentialCreationIn) (p : Bool),
      o ≠ "" → c.challenge ≠ [] → c.rpID = "" →
      registerInitCheck o (some c) p = .error "relying party ID required")
    ∧ (∀ (o : String) (c : CredentialCreationIn) (p : Bool),
      o ≠ "" → c.challenge ≠ [] → c.rpID ≠ "" →
      c.params.contains CredAlg.es256 = false →
      registerInitCheck o (some c) p =
        .error "ES256 algorithm required in credential parameters")
    ∧ (∀ (o : String) (c : CredentialCreationIn),
      o ≠ "" → c.challenge ≠ [] → c.rpID ≠ "" →
      c.params.contains CredAlg.es256 = true →
      registerInitCheck o (some c) false = .error "prompt required")
    ∧ (strContains "origin required" "origin" = true
      ∧ strContains "assertion required" "assertion" = true
      ∧ strContains "credential creation required" "credential creation" = true
      ∧ strContains "challenge required" "challenge" = true
      ∧ strContains "relying party ID required" "relying party ID" = true
      ∧ strContains "prompt required" "prompt" = true
      ∧ strContains "ES256 algorithm required in credential parameters"
          "ES256" = true) := by
  refine ⟨?_, ?_, ?_, ?_, ?_, ?_, ?_, ?_, ?_, ?_, ?_, by decide⟩
  · intro a p
    simp [loginInitCheck]
  · intro o p ho
    simp [loginInitCheck, ho]
  · intro o a p ho hch
    simp [loginInitCheck, ho, hch]
  · intro o a p ho hch hrp
    simp [loginInitCheck, ho, hch, hrp]
  · intro o a ho hch hrp
    simp [loginInitCheck, ho, hch, hrp]
  · intro cc p
    simp [registerInitCheck]
  · intro o p ho
    simp [registerInitCheck, ho]
  · intro o c p ho hch
    simp [registerInitCheck, ho, hch]
  · intro o c p ho hch hrp
    simp [registerInitCheck, ho, hch, hrp]
  · intro o c p ho hch hrp hes
    have hes2 : CredAlg.es256 ∉ c.params := by
      simpa using hes
    simp [registerInitCheck, ho, hch, hrp, hes2]
  · intro o c ho hch hrp hes
    have hes2 : CredAlg.es256 ∈ c.params := by
      simpa using hes
    simp [registerInitCheck, ho, hch, hrp, hes2]

/-- Witness for C6 at the concrete inputs of the Go error tests. -/
theorem init_validation_witness :
    loginInitCheck "" (some ⟨[1], "example.com"⟩) true = .error "origin required"
    ∧ loginInitCheck "https://example.com" none true = .error "assertion required"
    ∧ loginInitCheck "https://example.com" (some ⟨[], "example.com"⟩) true =
      .error "challenge required"
    ∧ loginInitCheck "https://example.com" (some ⟨[1], ""⟩) true =
      .error "relying party ID required"
    ∧ loginInitCheck "https://example.com" (some ⟨[1], "example.com"⟩) false =
      .error "prompt required"
    ∧ registerInitCheck "https://example.com"
        (some ⟨[1], "example.com", [CredAlg.eddsa]⟩) true =
      .error "ES256 algorithm required in credential parameters" :=
  ⟨init_validation.1 (some ⟨[1], "example.com"⟩) true,
   init_validation.2.1 "https://example.com" true (by decide),
   init_validation.2.2.1 "https://example.com" ⟨[], "example.com"⟩ true
     (by decide) rfl,
   init_validation.2.2.2.1 "https://example.com" ⟨[1], ""⟩ true (by decide)
     (by decide) rfl,
   init_validation.2.2.2.2.1 "https://example.com" ⟨[1], "example.com"⟩
     (by decide) (by decide) (by decide),
   init_validation.2.2.2.2.2.2.2.2.2.1 "https://example.com"
     ⟨[1], "example.com", [CredAlg.eddsa]⟩ true (by decide) (by decide)
     (by decide) rfl⟩

/-- C1: `PromptTouch` is invoked exactly once for MFA login, exactly once
for passwordless login on a (single plugged) biometric device, exactly twice
for passwordless login on a PIN device (selection touch, post-PIN touch),
and exactly twice for passwordless login whenever more than one device is
plugged. -/
theorem prompt_touch_counts :
    (∀ pinRequired : Bool, countTouches (mfaLogin pinRequired) = 1)
    ∧ countTouches
        (pwdlessLogin [PwdlessDev.bioDev] PwdlessDev.bioDev false).1 = 1
    ∧ (∀ devs : List PwdlessDev, devs ≠ [PwdlessDev.bioDev] →
      countTouches (pwdlessLogin devs PwdlessDev.pinDevice false).1 = 2)
    ∧ (∀ (devs : List PwdlessDev) (w : PwdlessDev), 2 ≤ devs.length →
      countTouches (pwdlessLogin devs w false).1 = 2) := by
  refine ⟨?_, by decide, ?_, ?_⟩
  · intro pinRequired
    cases pinRequired <;> decide
  · intro devs hne
    unfold pwdlessLogin
    rw [if_neg hne]
    decide
  · intro devs w hlen
    have hne : devs ≠ [PwdlessDev.bioDev] := by
      intro hcon
      rw [hcon] at hlen
      simp at hlen
    unfold pwdlessLogin
    rw [if_neg hne]
    cases w <;> decide

/-- Witness for C1 at the test scenarios (PIN device plus biometric device
plugged, as in `TestFIDO2Login_PromptTouch`). -/
theorem prompt_touch_counts_witness :
    countTouches (mfaLogin false) = 1
    ∧ countTouches
        (pwdlessLogin [PwdlessDev.pinDevice] PwdlessDev.pinDevice false).1 = 2
    ∧ countTouches
        (pwdlessLogin [PwdlessDev.pinDevice, PwdlessDev.bioDev]
          PwdlessDev.pinDevice false).1 = 2 :=
  ⟨prompt_touch_counts.1 false,
   prompt_touch_counts.2.2.1 [PwdlessDev.pinDevice] (by decide),
   prompt_touch_counts.2.2.2 [PwdlessDev.pinDevice, PwdlessDev.bioDev]
     PwdlessDev.pinDevice (by decide)⟩

/-- C7: in a passwordless PIN ceremony, cancelling the context from inside
the PIN prompt makes the login return `Cancelled`, and the second touch
prompt is never delivered: the trace stops at the selection touch and the
PIN prompt. -/
theorem cancel_after_pin_is_cancelled :
    ∀ devs : List PwdlessDev, devs ≠ [PwdlessDev.bioDev] →
      (pwdlessLogin devs PwdlessDev.pinDevice true).2 = LoginOutcome.cancelled
      ∧ (pwdlessLogin devs PwdlessDev.pinDevice true).1 =
        [PromptEv.touchPrompt, PromptEv.pinPrompt]
      ∧ countTouches (pwdlessLogin devs PwdlessDev.pinDevice true).1 = 1 := by
  intro devs hne
  unfold pwdlessLogin
  rw [if_neg hne]
  exact ⟨rfl, rfl, rfl⟩

/-- Witness for C7 at the scenario of the Go test (`pin3` and `bio2`
plugged, the PIN device selected, the prompt cancelling). -/
theorem cancel_after_pin_is_cancelled_witness :
    (pwdlessLogin [PwdlessDev.pinDevice, PwdlessDev.bioDev]
        PwdlessDev.pinDevice true).2 = LoginOutcome.cancelled
    ∧ countTouches
        (pwdlessLogin [PwdlessDev.pinDevice, PwdlessDev.bioDev]
          PwdlessDev.pinDevice true).1 = 1 :=
  ⟨(cancel_after_pin_is_cancelled [PwdlessDev.pinDevice, PwdlessDev.bioDev]
      (by decide)).1,
   (cancel_after_pin_is_cancelled [PwdlessDev.pinDevice, PwdlessDev.bioDev]
      (by decide)).2.2⟩

/-- C8: a successful credential selection returns a non-empty `actual_user`
only when more than one assertion (resident credential) was available — in
which case it is the chosen credential's user name — and returns an empty
`actual_user` whenever exactly one assertion was used, with or without a
requested user filter. -/
theorem actual_user_semantics :
    ∀ (asserts : List Assertion) (userFilter : String) (pick : Nat)
      (a : Assertion) (u : String),
      selectAssertion asserts userFilter pick = .ok (a, u) →
      (u ≠ "" → 2 ≤ asserts.length)
      ∧ (asserts.length = 1 → u = "")
      ∧ (2 ≤ asserts.length → u = a.user.name) := by
  intro asserts userFilter pick a u hok
  rcases asserts with _ | ⟨x, _ | ⟨y, rest⟩⟩
  · exact Except.noConfusion hok
  · simp only [selectAssertion] at hok
    split at hok
    · exact Except.noConfusion hok
    · simp only [Except.ok.injEq, Prod.mk.injEq] at hok
      refine ⟨fun hu => absurd hok.2.symm hu, fun _ => hok.2.symm, ?_⟩
      intro hlen
      simp at hlen
  · simp only [selectAssertion] at hok
    split at hok
    · split at hok
      · exact Except.noConfusion hok
      · simp only [Except.ok.injEq, Prod.mk.injEq] at hok
        refine ⟨fun _ => Nat.le_add_left 2 rest.length, ?_, ?_⟩
        · intro hcon
          simp only [List.length_cons] at hcon
          omega
        · intro _
          rw [← hok.1, ← hok.2]
    · simp only [Except.ok.injEq, Prod.mk.injEq] at hok
      refine ⟨fun _ => Nat.le_add_left 2 rest.length, ?_, ?_⟩
      · intro hcon
        simp only [List.length_cons] at hcon
        omega
      · intro _
        rw [← hok.1, ← hok.2]

/-- Witness for C8: two resident credentials filtered by user name yield
that user as `actual_user`; a single credential yields the empty string. -/
theorem actual_user_semantics_witness :
    (2 ≤ ([{ authDataCBOR := assertionAuthDataCBOR
             sig := assertionSig
             hmacSecret := []
             credentialID := [1]
             user := ⟨[11], "llama", "", ""⟩ },
           { authDataCBOR := assertionAuthDataCBOR
             sig := assertionSig
             hmacSecret := []
             credentialID := [2]
             user := ⟨[12], "alpaca", "", ""⟩ }] : List Assertion).length)
    ∧ "alpaca" =
      ({ authDataCBOR := assertionAuthDataCBOR
         sig := assertionSig
         hmacSecret := []
         credentialID := [2]
         user := (⟨[12], "alpaca", "", ""⟩ : FidoUser) } : Assertion).user.name :=
  ⟨(actual_user_semantics
      [{ authDataCBOR := assertionAuthDataCBOR
         sig := assertionSig
         hmacSecret := []
         credentialID := [1]
         user := ⟨[11], "llama", "", ""⟩ },
       { authDataCBOR := assertionAuthDataCBOR
         sig := assertionSig
         hmacSecret := []
         credentialID := [2]
         user := ⟨[12], "alpaca", "", ""⟩ }] "alpaca" 0 _ "alpaca" rfl).1
     (by decide),
   (actual_user_semantics
      [{ authDataCBOR := assertionAuthDataCBOR
         sig := assertionSig
         hmacSecret := []
         credentialID := [1]
         user := ⟨[11], "llama", "", ""⟩ },
       { authDataCBOR := assertionAuthDataCBOR
         sig := assertionSig
         hmacSecret := []
         credentialID := [2]
         user := ⟨[12], "alpaca", "", ""⟩ }] "alpaca" 0 _ "alpaca" rfl).2.2
     (by decide)⟩

end WebauthnCLI
